import Mathlib

/-!
# Verification of the metadata-handler chat application

Shallow embedding of `src/app.py` (a Dash chat app that samples uploaded data
files and forwards the conversation to a Databricks model-serving endpoint).

External library effects (base64 decoding, UTF-8 decoding, `pandas` readers,
`json.loads`, and the remote `serving_endpoints.query` call) are modelled as
oracle functions carried in environment structures; each oracle returns
`Except String α`, where `Except.error msg` stands for the Python call raising
an exception whose `str(e)` is `msg`.  The Python functions themselves are
translated line by line below.
-/

set_option autoImplicit false

namespace MetadataApp

/-- Raw bytes, as produced by `base64.b64decode`. -/
abbrev Bytes := List Nat

/-- Python's byte-level whitespace set used by `str.strip()` (ASCII part). -/
def pyIsSpace (c : Char) : Bool :=
  c = ' ' || c = '\t' || c = '\n' || c = '\r' || c = '\x0b' || c = '\x0c'

/-- Python `str.strip()`: drop leading and trailing whitespace. -/
def pyStrip (s : String) : String :=
  String.mk (((s.data.dropWhile pyIsSpace).reverse.dropWhile pyIsSpace).reverse)

/-- Python `str.endswith(suffix)`. -/
def pyEndsWith (s suffix : String) : Bool :=
  suffix.data.isSuffixOf s.data

/-- Worker for `pySplit`: scan the character list, cutting at each separator
(the accumulator holds the current chunk, reversed). -/
def pySplitAux (sep : Char) : List Char → List Char → List String
  | [], acc => [String.mk acc.reverse]
  | c :: cs, acc =>
      if c = sep then String.mk acc.reverse :: pySplitAux sep cs []
      else pySplitAux sep cs (c :: acc)

/-- Python `str.split(sep)` with a one-character separator: splits at every
occurrence and keeps empty chunks, so the result is never empty. -/
def pySplit (s : String) (sep : Char) : List String :=
  pySplitAux sep s.data []

/-- Python truthiness of an `Optional[str]`: `None` and `""` are falsy. -/
def pyFalsyOptStr : Option String → Bool
  | none => true
  | some s => s.isEmpty

/-- Substring containment on strings (used to state "the preview includes ..."). -/
def strContains (s sub : String) : Bool :=
  decide (sub.data <:+: s.data)

/-- String begins-with (used to state "a string beginning with ..."). -/
def strStartsWith (s pre : String) : Bool :=
  decide (pre.data <+: s.data)

/-- A conversation entry `{'role': ..., 'content': ...}`. -/
structure Msg where
  role : String
  content : String
deriving DecidableEq, Repr

/-! ## JSON values and `json.dumps(..., indent=2)`

Model of the Python `json` module as needed by `parse_file_content`:
a JSON value datatype (numbers restricted to integers, which suffices for the
properties under study) and a renderer mirroring `json.dumps` with `indent=2`.
-/

/-- JSON values as produced by `json.loads`. -/
inductive Json where
  | null : Json
  | bool (b : Bool) : Json
  | num (n : Int) : Json
  | str (s : String) : Json
  | arr (elems : List Json) : Json
  | obj (fields : List (String × Json)) : Json
deriving Repr

/-- JSON string escaping as done by `json.dumps` (common escapes). -/
def jsonEscape (s : String) : String :=
  s.data.foldl
    (fun acc c =>
      acc ++ (if c = '"' then "\\\""
              else if c = '\\' then "\\\\"
              else if c = '\n' then "\\n"
              else if c = '\t' then "\\t"
              else if c = '\r' then "\\r"
              else String.singleton c))
    ""

/-- `n` spaces of indentation. -/
def spaces (n : Nat) : String :=
  String.mk (List.replicate n ' ')

/-- `json.dumps(value, indent=2)` rendered at indentation level `ind`:
scalars inline; non-empty arrays and objects spread one item per line,
indented two further spaces, closed at the current indentation. -/
def json_dumps_at (ind : Nat) (j : Json) : String :=
  match j with
  | Json.null => "null"
  | Json.bool b => if b then "true" else "false"
  | Json.num n => toString n
  | Json.str s => "\"" ++ jsonEscape s ++ "\""
  | Json.arr [] => "[]"
  | Json.arr (x :: xs) =>
      "[\n" ++
        String.intercalate ",\n"
          ((x :: xs).attach.map (fun ⟨e, he⟩ =>
            spaces (ind + 2) ++ json_dumps_at (ind + 2) e)) ++
        "\n" ++ spaces ind ++ "]"
  | Json.obj [] => "\x7b\x7d"
  | Json.obj (f :: fs) =>
      "\x7b\n" ++
        String.intercalate ",\n"
          ((f :: fs).attach.map (fun ⟨(k, v), hkv⟩ =>
            spaces (ind + 2) ++ "\"" ++ jsonEscape k ++ "\": " ++
              json_dumps_at (ind + 2) v)) ++
        "\n" ++ spaces ind ++ "\x7d"
termination_by sizeOf j
decreasing_by
  · have hmem := List.sizeOf_lt_of_mem he
    simp_all
    omega
  · have hmem := List.sizeOf_lt_of_mem hkv
    simp_all
    omega

/-- `json.dumps(value, indent=2)`. -/
def json_dumps_indent2 (j : Json) : String :=
  json_dumps_at 0 j

/-! ## DataFrames and `pandas` rendering -/

/-- Model of a `pandas.DataFrame`: column labels plus data rows (cells as text). -/
structure DataFrame where
  columns : List String
  rows : List (List String)
deriving DecidableEq, Repr

/-- `df.head(n)`: the first `n` data rows. -/
def dfHead (n : Nat) (df : DataFrame) : DataFrame :=
  { df with rows := df.rows.take n }

/-- Model of `DataFrame.to_string()`: a header line followed by one line per row. -/
def dfToString (df : DataFrame) : String :=
  String.intercalate "\n"
    (String.intercalate " " df.columns :: df.rows.map (String.intercalate " "))

/-! ## The File Sampler: `parse_file_content` -/

/-- Oracles for the external libraries used by `parse_file_content`. -/
structure FileEnv where
  b64decode : String → Except String Bytes
  utf8decode : Bytes → Except String String
  read_csv : String → Except String DataFrame
  read_excel : Bytes → Except String DataFrame
  json_loads : String → Except String Json

/-- The body of `parse_file_content`'s `try` block, line by line.
`Except.error msg` is a raised exception with message `msg`. -/
def parse_file_body (env : FileEnv) (contents filename : String) :
    Except String String := do
  let content_string ←
    match pySplit contents ',' with
    | [_, cs] => Except.ok cs
    | [_] => Except.error "not enough values to unpack (expected 2, got 1)"
    | _ => Except.error "too many values to unpack (expected 2)"
  let decoded ← env.b64decode content_string
  if pyEndsWith filename ".csv" then
    let text ← env.utf8decode decoded
    let df ← env.read_csv text
    let sample := dfToString (dfHead 10 df)
    Except.ok ("File: " ++ filename ++ "\nSample data (first 10 rows):\n\n" ++ sample)
  else if pyEndsWith filename ".xlsx" || pyEndsWith filename ".xls" then
    let df ← env.read_excel decoded
    let sample := dfToString (dfHead 10 df)
    Except.ok ("File: " ++ filename ++ "\nSample data (first 10 rows):\n\n" ++ sample)
  else if pyEndsWith filename ".json" then
    let text ← env.utf8decode decoded
    let data ← env.json_loads text
    let sample :=
      match data with
      | Json.arr xs => json_dumps_indent2 (Json.arr (xs.take 10))
      | other => json_dumps_indent2 other
    Except.ok ("File: " ++ filename ++ "\nSample data:\n\n" ++ sample)
  else
    let text ← env.utf8decode decoded
    let lines := (pySplit text '\n').take 10
    Except.ok ("File: " ++ filename ++ "\nSample data (first 10 lines):\n\n" ++
      String.intercalate "\n" lines)

/-- `parse_file_content(contents, filename)`: the `try`/`except` wrapper. -/
def parse_file_content (env : FileEnv) (contents filename : String) : String :=
  match parse_file_body env contents filename with
  | Except.ok s => s
  | Except.error e => "Error parsing file: " ++ e

/-! ## The Model Gateway: `call_databricks_model` -/

/-- `response.choices[i].message` of a serving-endpoint response. -/
structure RespMessage where
  content : String
deriving DecidableEq, Repr

/-- One element of `response.choices`. -/
structure RespChoice where
  message : RespMessage
deriving DecidableEq, Repr

/-- A successful `serving_endpoints.query` response. -/
structure QueryResponse where
  choices : List RespChoice
deriving DecidableEq, Repr

/-- A `ChatMessage` handed to the SDK (role rendered as its string tag). -/
structure ChatMsg where
  role : String
  content : String
deriving DecidableEq, Repr

/-- The request `w.serving_endpoints.query(name=..., messages=..., max_tokens=...)`. -/
structure QueryRequest where
  name : String
  messages : List ChatMsg
  max_tokens : Nat

/-- Process-level state and remote oracle for the Model Gateway:
`SERVING_ENDPOINT` (`none` when the environment variable is unset),
`SYSTEM_PROMPT`, and `w.serving_endpoints.query` (its `Except.error msg`
is a raised exception with message `msg`). -/
structure GatewayEnv where
  endpoint : Option String
  systemPrompt : String
  query : QueryRequest → Except String QueryResponse

/-- The message list built by the loop at lines 263-269 of `app.py`:
a system message holding the system prompt, then each conversation entry
appended in turn, its role mapped to `user` exactly when it was `'user'`
and to `assistant` otherwise. -/
def prepare_chat_messages (sysPrompt : String) (messages : List Msg) : List ChatMsg :=
  messages.foldl
    (fun acc m =>
      acc ++ [⟨if m.role = "user" then "user" else "assistant", m.content⟩])
    [⟨"system", sysPrompt⟩]

/-- The request submitted to the serving endpoint (lines 272-276 of `app.py`). -/
def build_request (ep sysPrompt : String) (messages : List Msg) : QueryRequest :=
  { name := ep
    messages := prepare_chat_messages sysPrompt messages
    max_tokens := 2000 }

/-- `call_databricks_model(messages)`. -/
def call_databricks_model (env : GatewayEnv) (messages : List Msg) : String :=
  if pyFalsyOptStr env.endpoint then
    "Error: DATABRICKS_SERVING_ENDPOINT is not set. " ++
      "Add it to your .env file for local development, or ensure the app is deployed with a serving endpoint resource."
  else
    match env.query (build_request (env.endpoint.getD "") env.systemPrompt messages) with
    | Except.error e => "Error calling model: " ++ e
    | Except.ok response =>
      match response.choices with
      | c :: _ => c.message.content
      | [] => "Sorry, I couldn't process that request."

/-! ## Startup: `_load_system_prompt`

`promptFile` is the content of `metadata_prompt.txt` next to `app.py`, or
`none` when the file does not exist; `Except.error` is the raised
`FileNotFoundError` aborting module import (and hence process startup). -/

/-- `_load_system_prompt()`. -/
def load_system_prompt (promptPath : String) (promptFile : Option String) :
    Except String String :=
  match promptFile with
  | none =>
      Except.error ("Metadata prompt file not found: " ++ promptPath ++ ". " ++
        "Ensure metadata_prompt.txt exists in the same directory as app.py.")
  | some text => Except.ok (pyStrip text)

/-- Module-level startup: evaluating `SYSTEM_PROMPT = _load_system_prompt()`.
Startup succeeds with the loaded prompt, or aborts with the raised error. -/
def startup_system_prompt (promptPath : String) (promptFile : Option String) :
    Except String String :=
  load_system_prompt promptPath promptFile

/-! ## UI callbacks: `send_message` and `handle_file_upload`

`dash.no_update` is modelled as `none` in an `Option`-typed output slot:
the corresponding store keeps its previous value. -/

/-- A rendered chat bubble (the `html.Div` built per message). -/
inductive Rendered where
  | userBubble (content : String) : Rendered
  | assistantBubble (content : String) : Rendered
deriving DecidableEq, Repr

/-- The rendering loop shared by both callbacks: a user bubble for each
`'user'` entry, an assistant markdown bubble otherwise. -/
def render_messages (conversation : List Msg) : List Rendered :=
  conversation.foldl
    (fun acc m =>
      acc ++ [if m.role = "user" then Rendered.userBubble m.content
              else Rendered.assistantBubble m.content])
    []

/-- `send_message(n_clicks, message, conversation)`: returns the three outputs
(chat children, message-input value, conversation store), each `none` when the
callback answers `dash.no_update`. -/
def send_message (env : GatewayEnv) (message : Option String)
    (conversation : Option (List Msg)) :
    Option (List Rendered) × Option String × Option (List Msg) :=
  if pyFalsyOptStr message || (pyStrip (message.getD "")).isEmpty then
    (none, none, none)
  else
    let conv0 := conversation.getD []
    let conv1 := conv0 ++ [⟨"user", message.getD ""⟩]
    let ai_response := call_databricks_model env conv1
    let conv2 := conv1 ++ [⟨"assistant", ai_response⟩]
    (some (render_messages conv2), some "", some conv2)

/-- `handle_file_upload(contents, filename, conversation)`: returns the three
outputs (uploaded-file-data, chat children, conversation store); the first is
the Python value itself (`none` = Python `None`), the latter two are `none`
when the callback answers `dash.no_update`. -/
def handle_file_upload (env : GatewayEnv) (fenv : FileEnv)
    (contents : Option String) (filename : String)
    (conversation : Option (List Msg)) :
    Option String × Option (List Rendered) × Option (List Msg) :=
  match contents with
  | none => (none, none, none)
  | some c =>
    let file_content := parse_file_content fenv c filename
    let conv0 := conversation.getD []
    let conv1 := conv0 ++
      [⟨"user", "[File uploaded: " ++ filename ++ "]\n\n" ++ file_content⟩]
    let ai_response := call_databricks_model env conv1
    let conv2 := conv1 ++ [⟨"assistant", ai_response⟩]
    (some file_content, some (render_messages conv2), some conv2)

/-! ## Concrete instantiations used to exercise the theorems -/

/-- A configured gateway whose endpoint answers with a single empty-content
choice (a degenerate but well-formed remote reply). -/
def emptyReplyEnv : GatewayEnv :=
  { endpoint := some "ep"
    systemPrompt := "sys"
    query := fun _ => Except.ok { choices := [{ message := { content := "" } }] } }

/-- A configured gateway whose remote call raises `boom`. -/
def failingQueryEnv : GatewayEnv :=
  { endpoint := some "ep"
    systemPrompt := "sys"
    query := fun _ => Except.error "boom" }

/-- An unconfigured gateway (`DATABRICKS_SERVING_ENDPOINT` unset). -/
def unsetEnv : GatewayEnv :=
  { endpoint := none
    systemPrompt := "sys"
    query := fun _ => Except.error "unreachable" }

/-- An unconfigured gateway with a different remote oracle than `unsetEnv`. -/
def unsetEnv2 : GatewayEnv :=
  { endpoint := none
    systemPrompt := "sys"
    query := fun _ => Except.ok { choices := [{ message := { content := "hello" } }] } }

/-- A file environment whose base64 decoding raises. -/
def badB64Env : FileEnv :=
  { b64decode := fun _ => Except.error "Invalid base64-encoded string"
    utf8decode := fun _ => Except.error "unreachable"
    read_csv := fun _ => Except.error "unreachable"
    read_excel := fun _ => Except.error "unreachable"
    json_loads := fun _ => Except.error "unreachable" }

/-- A twelve-row data frame. -/
def csvFrame : DataFrame :=
  { columns := ["col"], rows := List.replicate 12 ["cell"] }

/-- A file environment that parses any payload as `csvFrame`. -/
def csvEnv : FileEnv :=
  { b64decode := fun _ => Except.ok [0]
    utf8decode := fun _ => Except.ok "raw"
    read_csv := fun _ => Except.ok csvFrame
    read_excel := fun _ => Except.ok csvFrame
    json_loads := fun _ => Except.error "unreachable" }

/-- Fifteen one-field JSON objects. -/
def fifteenObjs : List Json :=
  (List.range 15).map (fun i => Json.obj [("id", Json.num i)])

/-- A file environment that parses any payload as the list `fifteenObjs`. -/
def jsonEnv : FileEnv :=
  { b64decode := fun _ => Except.ok [0]
    utf8decode := fun _ => Except.ok "raw"
    read_csv := fun _ => Except.error "unreachable"
    read_excel := fun _ => Except.error "unreachable"
    json_loads := fun _ => Except.ok (Json.arr fifteenObjs) }

/-- A file environment that decodes any payload as three lines of text. -/
def textEnv : FileEnv :=
  { b64decode := fun _ => Except.ok [0]
    utf8decode := fun _ => Except.ok "one\ntwo\nthree"
    read_csv := fun _ => Except.error "unreachable"
    read_excel := fun _ => Except.error "unreachable"
    json_loads := fun _ => Except.error "unreachable" }

/-- A two-message prior conversation. -/
def twoMsgConv : List Msg :=
  [⟨"user", "hi"⟩, ⟨"assistant", "hello"⟩]

/-! ## Supporting lemmas -/

theorem except_ok_bind {α β : Type} (a : α) (f : α → Except String β) :
    (Except.ok a >>= f) = f a := rfl

theorem except_error_bind {α β : Type} (e : String) (f : α → Except String β) :
    ((Except.error e : Except String α) >>= f) = Except.error e := rfl

theorem foldl_append_eq_map {α β : Type} (f : α → β) (l : List α) (init : List β) :
    l.foldl (fun acc m => acc ++ [f m]) init = init ++ l.map f := by
  induction l generalizing init with
  | nil => simp
  | cons x xs ih => simp [ih]

theorem prepare_chat_messages_eq_map (sys : String) (conv : List Msg) :
    prepare_chat_messages sys conv =
      ChatMsg.mk "system" sys ::
        conv.map (fun m =>
          ChatMsg.mk (if m.role = "user" then "user" else "assistant") m.content) := by
  have h := foldl_append_eq_map
    (fun m : Msg => ChatMsg.mk (if m.role = "user" then "user" else "assistant") m.content)
    conv [ChatMsg.mk "system" sys]
  simpa [prepare_chat_messages] using h

theorem render_messages_eq_map (conv : List Msg) :
    render_messages conv =
      conv.map (fun m =>
        if m.role = "user" then Rendered.userBubble m.content
        else Rendered.assistantBubble m.content) := by
  have h := foldl_append_eq_map
    (fun m : Msg =>
      if m.role = "user" then Rendered.userBubble m.content
      else Rendered.assistantBubble m.content)
    conv []
  simpa [render_messages] using h

theorem strContains_self (s : String) : strContains s s = true :=
  decide_eq_true ⟨[], [], by simp⟩

theorem strContains_append_left (s t sub : String) (h : strContains s sub = true) :
    strContains (s ++ t) sub = true := by
  obtain ⟨a, b, hab⟩ := of_decide_eq_true h
  exact decide_eq_true ⟨a, b ++ t.data, by rw [String.data_append, ← hab]; simp⟩

theorem strContains_append_right (s t sub : String) (h : strContains t sub = true) :
    strContains (s ++ t) sub = true := by
  obtain ⟨a, b, hab⟩ := of_decide_eq_true h
  exact decide_eq_true ⟨s.data ++ a, b, by rw [String.data_append, ← hab]; simp⟩

theorem strStartsWith_append (pre rest : String) :
    strStartsWith (pre ++ rest) pre = true :=
  decide_eq_true ⟨rest.data, by rw [String.data_append]⟩

theorem error_parse_startsWith (e : String) :
    strStartsWith ("Error parsing file: " ++ e) "Error parsing file:" = true := by
  apply decide_eq_true
  refine ⟨' ' :: e.data, ?_⟩
  rw [String.data_append]
  have h : ("Error parsing file: ").data = ("Error parsing file:").data ++ [' '] := by decide
  rw [h]
  simp

theorem string_append_ne_empty (s t : String) (h : s.length ≠ 0) : s ++ t ≠ "" := by
  intro hc
  have h2 := congrArg String.length hc
  rw [String.length_append] at h2
  have h0 : ("" : String).length = 0 := rfl
  rw [h0] at h2
  omega

theorem pyEndsWith_excl (s t1 t2 : String)
    (h12 : ¬ t1.data <:+ t2.data) (h21 : ¬ t2.data <:+ t1.data)
    (h : pyEndsWith s t1 = true) : pyEndsWith s t2 = false := by
  have h1 : t1.data <:+ s.data := List.isSuffixOf_iff_suffix.mp h
  unfold pyEndsWith
  cases hs : List.isSuffixOf t2.data s.data with
  | false => rfl
  | true =>
    have h2 : t2.data <:+ s.data := List.isSuffixOf_iff_suffix.mp hs
    rcases List.suffix_or_suffix_of_suffix h1 h2 with hc | hc
    · exact absurd hc h12
    · exact absurd hc h21

theorem json_not_csv (s : String) (h : pyEndsWith s ".json" = true) :
    pyEndsWith s ".csv" = false :=
  pyEndsWith_excl s ".json" ".csv" (by decide) (by decide) h

theorem json_not_xlsx (s : String) (h : pyEndsWith s ".json" = true) :
    pyEndsWith s ".xlsx" = false :=
  pyEndsWith_excl s ".json" ".xlsx" (by decide) (by decide) h

theorem json_not_xls (s : String) (h : pyEndsWith s ".json" = true) :
    pyEndsWith s ".xls" = false :=
  pyEndsWith_excl s ".json" ".xls" (by decide) (by decide) h

theorem xlsx_not_csv (s : String) (h : pyEndsWith s ".xlsx" = true) :
    pyEndsWith s ".csv" = false :=
  pyEndsWith_excl s ".xlsx" ".csv" (by decide) (by decide) h

theorem xls_not_csv (s : String) (h : pyEndsWith s ".xls" = true) :
    pyEndsWith s ".csv" = false :=
  pyEndsWith_excl s ".xls" ".csv" (by decide) (by decide) h

theorem isEmpty_false_of_ne (s : String) (h : s ≠ "") : s.isEmpty = false := by
  cases he : s.isEmpty with
  | false => rfl
  | true => exact absurd ((String.isEmpty_iff s).mp he) h

theorem parse_file_content_of_ok (env : FileEnv) (contents filename s : String)
    (h : parse_file_body env contents filename = Except.ok s) :
    parse_file_content env contents filename = s := by
  unfold parse_file_content
  rw [h]

theorem parse_file_body_csv (env : FileEnv) (contents filename ct cs text : String)
    (bs : Bytes) (df : DataFrame)
    (hsplit : pySplit contents ',' = [ct, cs])
    (hb64 : env.b64decode cs = Except.ok bs)
    (hcsv : pyEndsWith filename ".csv" = true)
    (hutf8 : env.utf8decode bs = Except.ok text)
    (hread : env.read_csv text = Except.ok df) :
    parse_file_body env contents filename =
      Except.ok ("File: " ++ filename ++ "\nSample data (first 10 rows):\n\n" ++
        dfToString (dfHead 10 df)) := by
  unfold parse_file_body
  rw [hsplit]
  simp only [except_ok_bind, hb64, hcsv, if_true, hutf8, hread]

theorem parse_file_body_excel (env : FileEnv) (contents filename ct cs : String)
    (bs : Bytes) (df : DataFrame)
    (hsplit : pySplit contents ',' = [ct, cs])
    (hb64 : env.b64decode cs = Except.ok bs)
    (hncsv : pyEndsWith filename ".csv" = false)
    (hxl : pyEndsWith filename ".xlsx" = true ∨ pyEndsWith filename ".xls" = true)
    (hread : env.read_excel bs = Except.ok df) :
    parse_file_body env contents filename =
      Except.ok ("File: " ++ filename ++ "\nSample data (first 10 rows):\n\n" ++
        dfToString (dfHead 10 df)) := by
  have hor : (pyEndsWith filename ".xlsx" || pyEndsWith filename ".xls") = true := by
    rcases hxl with h | h <;> simp [h]
  unfold parse_file_body
  rw [hsplit]
  simp only [except_ok_bind, hb64, hncsv, hor, if_true, if_false, Bool.false_eq_true, hread]

theorem parse_file_body_json (env : FileEnv) (contents filename ct cs text : String)
    (bs : Bytes) (data : Json)
    (hsplit : pySplit contents ',' = [ct, cs])
    (hb64 : env.b64decode cs = Except.ok bs)
    (hjson : pyEndsWith filename ".json" = true)
    (hutf8 : env.utf8decode bs = Except.ok text)
    (hloads : env.json_loads text = Except.ok data) :
    parse_file_body env contents filename =
      Except.ok ("File: " ++ filename ++ "\nSample data:\n\n" ++
        (match data with
         | Json.arr xs => json_dumps_indent2 (Json.arr (xs.take 10))
         | other => json_dumps_indent2 other)) := by
  have hncsv := json_not_csv filename hjson
  have hnxlsx := json_not_xlsx filename hjson
  have hnxls := json_not_xls filename hjson
  unfold parse_file_body
  rw [hsplit]
  simp only [except_ok_bind, hb64, hncsv, hnxlsx, hnxls, hjson, if_true, if_false,
    Bool.false_eq_true, Bool.or_self, hutf8, hloads]
  cases data <;> rfl

theorem parse_file_body_text (env : FileEnv) (contents filename ct cs text : String)
    (bs : Bytes)
    (hncsv : pyEndsWith filename ".csv" = false)
    (hnxlsx : pyEndsWith filename ".xlsx" = false)
    (hnxls : pyEndsWith filename ".xls" = false)
    (hnjson : pyEndsWith filename ".json" = false)
    (hsplit : pySplit contents ',' = [ct, cs])
    (hb64 : env.b64decode cs = Except.ok bs)
    (hutf8 : env.utf8decode bs = Except.ok text) :
    parse_file_body env contents filename =
      Except.ok ("File: " ++ filename ++ "\nSample data (first 10 lines):\n\n" ++
        String.intercalate "\n" ((pySplit text '\n').take 10)) := by
  unfold parse_file_body
  rw [hsplit]
  simp only [except_ok_bind, hb64, hncsv, hnxlsx, hnxls, hnjson, if_false,
    Bool.false_eq_true, Bool.or_self, hutf8]

/-! ## Claim theorems -/

/-- C2: for every byte payload and filename, if decoding or parsing fails
(the body of the `try` block raises with message `e`), `parse_file_content`
does not raise and returns the string "Error parsing file: " followed by the
failure message. -/
theorem parse_file_error_string (env : FileEnv) (contents filename e : String)
    (h : parse_file_body env contents filename = Except.error e) :
    parse_file_content env contents filename = "Error parsing file: " ++ e
    ∧ strStartsWith (parse_file_content env contents filename)
        "Error parsing file:" = true := by
  have hres : parse_file_content env contents filename = "Error parsing file: " ++ e := by
    unfold parse_file_content
    rw [h]
  exact ⟨hres, by rw [hres]; exact error_parse_startsWith e⟩

/-- C2 witness: a payload whose base64 decoding raises. -/
theorem parse_file_error_string_witness :
    parse_file_body badB64Env "data:text/csv;base64,AAAA" "t.csv" =
        Except.error "Invalid base64-encoded string"
    ∧ parse_file_content badB64Env "data:text/csv;base64,AAAA" "t.csv" =
        "Error parsing file: " ++ "Invalid base64-encoded string" :=
  ⟨rfl, (parse_file_error_string badB64Env "data:text/csv;base64,AAAA" "t.csv"
      "Invalid base64-encoded string" rfl).1⟩

/-- C6: for every payload and filename ending in `.csv`, `.xlsx`, or `.xls`
that parses as tabular data, the preview renders `df.head(10)` (at most 10
data rows), includes the filename, and carries the "first 10 rows" label. -/
theorem tabular_preview_rows (env : FileEnv) (contents filename ct cs : String)
    (bs : Bytes) (df : DataFrame)
    (hsplit : pySplit contents ',' = [ct, cs])
    (hb64 : env.b64decode cs = Except.ok bs)
    (hcase :
      (pyEndsWith filename ".csv" = true
        ∧ ∃ text, env.utf8decode bs = Except.ok text ∧ env.read_csv text = Except.ok df)
      ∨ ((pyEndsWith filename ".xlsx" = true ∨ pyEndsWith filename ".xls" = true)
        ∧ env.read_excel bs = Except.ok df)) :
    parse_file_content env contents filename =
      "File: " ++ filename ++ "\nSample data (first 10 rows):\n\n" ++
        dfToString (dfHead 10 df)
    ∧ (dfHead 10 df).rows.length ≤ 10
    ∧ strContains (parse_file_content env contents filename) filename = true
    ∧ strContains (parse_file_content env contents filename) "first 10 rows" = true := by
  have hres : parse_file_content env contents filename =
      "File: " ++ filename ++ "\nSample data (first 10 rows):\n\n" ++
        dfToString (dfHead 10 df) := by
    rcases hcase with ⟨hcsv, text, hutf8, hread⟩ | ⟨hxl, hread⟩
    · exact parse_file_content_of_ok _ _ _ _
        (parse_file_body_csv env contents filename ct cs text bs df hsplit hb64 hcsv
          hutf8 hread)
    · have hncsv : pyEndsWith filename ".csv" = false := by
        rcases hxl with h | h
        · exact xlsx_not_csv filename h
        · exact xls_not_csv filename h
      exact parse_file_content_of_ok _ _ _ _
        (parse_file_body_excel env contents filename ct cs bs df hsplit hb64 hncsv
          hxl hread)
  have hrows : (dfHead 10 df).rows.length ≤ 10 := by
    simp [dfHead, List.length_take]
  refine ⟨hres, hrows, ?_, ?_⟩
  · rw [hres]
    apply strContains_append_left
    apply strContains_append_left
    exact strContains_append_right _ _ _ (strContains_self filename)
  · rw [hres]
    apply strContains_append_left
    apply strContains_append_right
    decide

/-- C6 witness: a twelve-row comma-separated file. -/
theorem tabular_preview_rows_witness :
    pySplit "h,AAAA" ',' = ["h", "AAAA"]
    ∧ pyEndsWith "data.csv" ".csv" = true
    ∧ (dfHead 10 csvFrame).rows.length ≤ 10
    ∧ strContains (parse_file_content csvEnv "h,AAAA" "data.csv") "first 10 rows" = true := by
  have h := tabular_preview_rows csvEnv "h,AAAA" "data.csv" "h" "AAAA" [0] csvFrame rfl rfl
    (Or.inl ⟨by decide, "raw", rfl, rfl⟩)
  exact ⟨rfl, by decide, h.2.1, h.2.2.2⟩

/-- C5: for every payload that parses as JSON with a top-level list and a
filename ending in `.json`, the preview is the first 10 elements of the list
re-serialized with `json.dumps(..., indent=2)`, prefixed with the filename;
a 15-element list yields exactly 10. -/
theorem json_list_preview (env : FileEnv) (contents filename ct cs text : String)
    (bs : Bytes) (xs : List Json)
    (hjson : pyEndsWith filename ".json" = true)
    (hsplit : pySplit contents ',' = [ct, cs])
    (hb64 : env.b64decode cs = Except.ok bs)
    (hutf8 : env.utf8decode bs = Except.ok text)
    (hloads : env.json_loads text = Except.ok (Json.arr xs)) :
    parse_file_content env contents filename =
      "File: " ++ filename ++ "\nSample data:\n\n" ++
        json_dumps_indent2 (Json.arr (xs.take 10))
    ∧ (xs.take 10).length ≤ 10
    ∧ strContains (parse_file_content env contents filename) filename = true
    ∧ (xs.length = 15 → (xs.take 10).length = 10) := by
  have hbody := parse_file_body_json env contents filename ct cs text bs (Json.arr xs)
    hsplit hb64 hjson hutf8 hloads
  have hres : parse_file_content env contents filename =
      "File: " ++ filename ++ "\nSample data:\n\n" ++
        json_dumps_indent2 (Json.arr (xs.take 10)) :=
    parse_file_content_of_ok _ _ _ _ hbody
  refine ⟨hres, by simp [List.length_take], ?_, ?_⟩
  · rw [hres]
    apply strContains_append_left
    apply strContains_append_left
    exact strContains_append_right _ _ _ (strContains_self filename)
  · intro h15
    simp [List.length_take, h15]

/-- C5 witness: a list of fifteen JSON objects previews exactly ten. -/
theorem json_list_preview_witness :
    pyEndsWith "list.json" ".json" = true
    ∧ fifteenObjs.length = 15
    ∧ (fifteenObjs.take 10).length = 10
    ∧ parse_file_content jsonEnv "h,AAAA" "list.json" =
        "File: " ++ "list.json" ++ "\nSample data:\n\n" ++
          json_dumps_indent2 (Json.arr (fifteenObjs.take 10)) := by
  have h := json_list_preview jsonEnv "h,AAAA" "list.json" "h" "AAAA" "raw" [0] fifteenObjs
    (by decide) rfl rfl rfl rfl
  exact ⟨by decide, by decide, h.2.2.2 (by decide), h.1⟩

/-- C7: for every payload whose filename matches no recognized extension and
that decodes as UTF-8 text, the preview is the first 10 lines joined with
newlines, prefixed with the filename and the "first 10 lines" label; a text
of exactly 3 lines is shown whole. -/
theorem text_fallback_preview (env : FileEnv) (contents filename ct cs text : String)
    (bs : Bytes)
    (hncsv : pyEndsWith filename ".csv" = false)
    (hnxlsx : pyEndsWith filename ".xlsx" = false)
    (hnxls : pyEndsWith filename ".xls" = false)
    (hnjson : pyEndsWith filename ".json" = false)
    (hsplit : pySplit contents ',' = [ct, cs])
    (hb64 : env.b64decode cs = Except.ok bs)
    (hutf8 : env.utf8decode bs = Except.ok text) :
    parse_file_content env contents filename =
      "File: " ++ filename ++ "\nSample data (first 10 lines):\n\n" ++
        String.intercalate "\n" ((pySplit text '\n').take 10)
    ∧ ((pySplit text '\n').take 10).length ≤ 10
    ∧ strContains (parse_file_content env contents filename) filename = true
    ∧ strContains (parse_file_content env contents filename) "first 10 lines" = true
    ∧ ((pySplit text '\n').length = 3 →
        (pySplit text '\n').take 10 = pySplit text '\n') := by
  have hres : parse_file_content env contents filename =
      "File: " ++ filename ++ "\nSample data (first 10 lines):\n\n" ++
        String.intercalate "\n" ((pySplit text '\n').take 10) :=
    parse_file_content_of_ok _ _ _ _
      (parse_file_body_text env contents filename ct cs text bs hncsv hnxlsx hnxls hnjson
        hsplit hb64 hutf8)
  refine ⟨hres, by simp [List.length_take], ?_, ?_, ?_⟩
  · rw [hres]
    apply strContains_append_left
    apply strContains_append_left
    exact strContains_append_right _ _ _ (strContains_self filename)
  · rw [hres]
    apply strContains_append_left
    apply strContains_append_right
    decide
  · intro h3
    exact List.take_of_length_le (by omega)

/-- C7 witness: a three-line plain-text file is previewed whole. -/
theorem text_fallback_preview_witness :
    pySplit "one\ntwo\nthree" '\n' = ["one", "two", "three"]
    ∧ parse_file_content textEnv "h,AAAA" "notes.txt" =
        "File: " ++ "notes.txt" ++ "\nSample data (first 10 lines):\n\n" ++
          String.intercalate "\n" ((pySplit "one\ntwo\nthree" '\n').take 10)
    ∧ (pySplit "one\ntwo\nthree" '\n').take 10 = pySplit "one\ntwo\nthree" '\n'
    ∧ strContains (parse_file_content textEnv "h,AAAA" "notes.txt") "first 10 lines" = true := by
  have h := text_fallback_preview textEnv "h,AAAA" "notes.txt" "h" "AAAA" "one\ntwo\nthree" [0]
    (by decide) (by decide) (by decide) (by decide) rfl rfl rfl
  exact ⟨rfl, h.1, h.2.2.2.2 rfl, h.2.2.2.1⟩

/-- C8: when the serving endpoint is not configured, `call_databricks_model`
returns the fixed explanatory string mentioning `DATABRICKS_SERVING_ENDPOINT`
for any conversation, and the remote oracle is never consulted. -/
theorem endpoint_unset_message (env : GatewayEnv) (conv : List Msg)
    (h : pyFalsyOptStr env.endpoint = true) :
    call_databricks_model env conv =
      "Error: DATABRICKS_SERVING_ENDPOINT is not set. " ++
        "Add it to your .env file for local development, or ensure the app is deployed with a serving endpoint resource."
    ∧ strContains (call_databricks_model env conv) "DATABRICKS_SERVING_ENDPOINT" = true
    ∧ (∀ q, call_databricks_model { env with query := q } conv =
        call_databricks_model env conv) := by
  have hres : call_databricks_model env conv =
      "Error: DATABRICKS_SERVING_ENDPOINT is not set. " ++
        "Add it to your .env file for local development, or ensure the app is deployed with a serving endpoint resource." := by
    unfold call_databricks_model
    rw [h]
    rfl
  refine ⟨hres, ?_, ?_⟩
  · rw [hres]
    apply strContains_append_left
    have hsplit3 : ("Error: DATABRICKS_SERVING_ENDPOINT is not set. " : String) =
        "Error: " ++ "DATABRICKS_SERVING_ENDPOINT" ++ " is not set. " := by decide
    rw [hsplit3]
    apply strContains_append_left
    exact strContains_append_right _ _ _ (strContains_self _)
  · intro q
    rw [hres]
    unfold call_databricks_model
    rw [show ({ env with query := q } : GatewayEnv).endpoint = env.endpoint from rfl, h]
    rfl

/-- C8 witness: the unconfigured environment on the empty conversation. -/
theorem endpoint_unset_message_witness :
    pyFalsyOptStr unsetEnv.endpoint = true
    ∧ call_databricks_model unsetEnv [] =
        "Error: DATABRICKS_SERVING_ENDPOINT is not set. " ++
          "Add it to your .env file for local development, or ensure the app is deployed with a serving endpoint resource." :=
  ⟨by decide, (endpoint_unset_message unsetEnv [] (by decide)).1⟩

/-- C1 counterexample: a successful remote call whose single choice carries
empty content makes `call_databricks_model` return the empty string, so the
function does not always return a non-empty text value. -/
theorem gateway_empty_reply_counterexample :
    call_databricks_model emptyReplyEnv [] = "" := rfl

/-- C1 (amended): `call_databricks_model` is total and never propagates an
exception; whenever the endpoint is unset, the remote call fails, or a
successful response has no choices, the result is non-empty and of the
documented form ("Error calling model: <message>" on remote failure, the
generic fallback on a choiceless success); on a successful response with
choices the result is the first choice's content verbatim, which may be
empty. -/
theorem call_databricks_model_paths (env : GatewayEnv) (messages : List Msg) :
    (pyFalsyOptStr env.endpoint = true → call_databricks_model env messages ≠ "")
    ∧ (∀ e, pyFalsyOptStr env.endpoint = false →
        env.query (build_request (env.endpoint.getD "") env.systemPrompt messages) =
          Except.error e →
        call_databricks_model env messages = "Error calling model: " ++ e
        ∧ call_databricks_model env messages ≠ "")
    ∧ (∀ r, pyFalsyOptStr env.endpoint = false →
        env.query (build_request (env.endpoint.getD "") env.systemPrompt messages) =
          Except.ok r →
        r.choices = [] →
        call_databricks_model env messages = "Sorry, I couldn't process that request."
        ∧ call_databricks_model env messages ≠ "")
    ∧ (∀ r c rest, pyFalsyOptStr env.endpoint = false →
        env.query (build_request (env.endpoint.getD "") env.systemPrompt messages) =
          Except.ok r →
        r.choices = c :: rest →
        call_databricks_model env messages = c.message.content) := by
  refine ⟨?_, ?_, ?_, ?_⟩
  · intro h
    rw [(endpoint_unset_message env messages h).1]
    exact string_append_ne_empty _ _ (by decide)
  · intro e hf hq
    have hres : call_databricks_model env messages = "Error calling model: " ++ e := by
      unfold call_databricks_model
      rw [hf, hq]
      rfl
    exact ⟨hres, by rw [hres]; exact string_append_ne_empty _ _ (by decide)⟩
  · intro r hf hq hch
    have hres : call_databricks_model env messages =
        "Sorry, I couldn't process that request." := by
      unfold call_databricks_model
      rw [hf, hq]
      show (match r.choices with
        | c :: _ => c.message.content
        | [] => "Sorry, I couldn't process that request.") = _
      rw [hch]
    exact ⟨hres, by rw [hres]; decide⟩
  · intro r c rest hf hq hch
    unfold call_databricks_model
    rw [hf, hq]
    show (match r.choices with
      | c :: _ => c.message.content
      | [] => "Sorry, I couldn't process that request.") = _
    rw [hch]

/-- C1 witness: a failing remote call is converted to the error string. -/
theorem call_databricks_model_paths_witness :
    pyFalsyOptStr failingQueryEnv.endpoint = false
    ∧ failingQueryEnv.query
        (build_request (failingQueryEnv.endpoint.getD "") failingQueryEnv.systemPrompt []) =
          Except.error "boom"
    ∧ call_databricks_model failingQueryEnv [] = "Error calling model: " ++ "boom" :=
  ⟨by decide, rfl,
    ((call_databricks_model_paths failingQueryEnv []).2.1 "boom" (by decide) rfl).1⟩

/-- C3: the request sent to the serving endpoint carries exactly one fixed
system message first, then every conversation message in original order with
no truncation or omission, and a fixed generation limit of 2000 tokens. -/
theorem request_full_history (ep sys : String) (conv : List Msg) :
    (build_request ep sys conv).messages =
      ChatMsg.mk "system" sys ::
        conv.map (fun m =>
          ChatMsg.mk (if m.role = "user" then "user" else "assistant") m.content)
    ∧ (build_request ep sys conv).messages.length = conv.length + 1
    ∧ (∀ i m, conv[i]? = some m →
        (build_request ep sys conv).messages[i + 1]? =
          some (ChatMsg.mk (if m.role = "user" then "user" else "assistant") m.content))
    ∧ (build_request ep sys conv).max_tokens = 2000 := by
  have hmsg : (build_request ep sys conv).messages =
      ChatMsg.mk "system" sys ::
        conv.map (fun m =>
          ChatMsg.mk (if m.role = "user" then "user" else "assistant") m.content) :=
    prepare_chat_messages_eq_map sys conv
  refine ⟨hmsg, ?_, ?_, rfl⟩
  · rw [hmsg]
    simp
  · intro i m him
    rw [hmsg]
    simp [List.getElem?_map, him]

/-- C3 witness: the two-message conversation is forwarded whole. -/
theorem request_full_history_witness :
    twoMsgConv[0]? = some (Msg.mk "user" "hi")
    ∧ (build_request "ep" "sys" twoMsgConv).messages[1]? = some (ChatMsg.mk "user" "hi")
    ∧ (build_request "ep" "sys" twoMsgConv).messages.length = twoMsgConv.length + 1
    ∧ (build_request "ep" "sys" twoMsgConv).max_tokens = 2000 := by
  have h := request_full_history "ep" "sys" twoMsgConv
  exact ⟨rfl, h.2.2.1 0 (Msg.mk "user" "hi") rfl, h.2.1, h.2.2.2⟩

/-- C4: the conversation store is append-only: a `send_message` round trip
with a non-blank message leaves every prior entry unchanged and appends
exactly the typed user message and then the assistant reply (so a length-2
conversation grows to length 4). -/
theorem send_message_appends (env : GatewayEnv) (fenv : FileEnv) (conv : List Msg)
    (m contents filename : String) (h : pyStrip m ≠ "") :
    (∃ reply : String,
      reply = call_databricks_model env (conv ++ [Msg.mk "user" m])
      ∧ send_message env (some m) (some conv) =
          (some (render_messages (conv ++ [Msg.mk "user" m, Msg.mk "assistant" reply])),
            some "", some (conv ++ [Msg.mk "user" m, Msg.mk "assistant" reply]))
      ∧ (conv ++ [Msg.mk "user" m, Msg.mk "assistant" reply]).length = conv.length + 2
      ∧ (conv ++ [Msg.mk "user" m, Msg.mk "assistant" reply]).take conv.length = conv
      ∧ (conv ++ [Msg.mk "user" m, Msg.mk "assistant" reply]).drop conv.length =
          [Msg.mk "user" m, Msg.mk "assistant" reply])
    ∧ (∃ upload reply2 : String,
      upload = "[File uploaded: " ++ filename ++ "]\n\n" ++
        parse_file_content fenv contents filename
      ∧ reply2 = call_databricks_model env (conv ++ [Msg.mk "user" upload])
      ∧ (handle_file_upload env fenv (some contents) filename (some conv)).2.2 =
          some (conv ++ [Msg.mk "user" upload, Msg.mk "assistant" reply2])
      ∧ (conv ++ [Msg.mk "user" upload, Msg.mk "assistant" reply2]).length = conv.length + 2
      ∧ (conv ++ [Msg.mk "user" upload, Msg.mk "assistant" reply2]).take conv.length = conv
      ∧ (conv ++ [Msg.mk "user" upload, Msg.mk "assistant" reply2]).drop conv.length =
          [Msg.mk "user" upload, Msg.mk "assistant" reply2]) := by
  have hm : m ≠ "" := by
    intro hc
    rw [hc] at h
    exact h rfl
  have hm1 : m.isEmpty = false := isEmpty_false_of_ne m hm
  have hm2 : (pyStrip m).isEmpty = false := isEmpty_false_of_ne (pyStrip m) h
  constructor
  · refine ⟨call_databricks_model env (conv ++ [Msg.mk "user" m]), rfl, ?_, ?_, ?_, ?_⟩
    · unfold send_message
      simp only [Option.getD_some, pyFalsyOptStr, hm1, hm2, Bool.or_self, Bool.false_eq_true,
        if_false, List.append_assoc, List.cons_append, List.nil_append]
    · simp
    · exact List.take_left conv _
    · exact List.drop_left conv _
  · refine ⟨_, _, rfl, rfl, ?_, by simp, List.take_left conv _, List.drop_left conv _⟩
    unfold handle_file_upload
    simp only [Option.getD_some, List.append_assoc, List.cons_append, List.nil_append]

/-- C4 witness: the scenario of the spec — a two-entry history plus the typed
message "Describe this dataset" yields four entries, the last two being the
user message and the assistant reply. -/
theorem send_message_appends_witness :
    pyStrip "Describe this dataset" ≠ ""
    ∧ ∃ reply : String,
        (twoMsgConv ++ [Msg.mk "user" "Describe this dataset",
          Msg.mk "assistant" reply]).length = 4
        ∧ (twoMsgConv ++ [Msg.mk "user" "Describe this dataset",
            Msg.mk "assistant" reply]).take 2 = twoMsgConv
        ∧ (twoMsgConv ++ [Msg.mk "user" "Describe this dataset",
            Msg.mk "assistant" reply]).drop 2 =
              [Msg.mk "user" "Describe this dataset", Msg.mk "assistant" reply] := by
  refine ⟨by decide, ?_⟩
  obtain ⟨reply, h1, h2, h3, h4, h5⟩ :=
    (send_message_appends unsetEnv textEnv twoMsgConv "Describe this dataset" "h,AAAA"
      "notes.txt" (by decide)).1
  exact ⟨reply, by rw [h3]; rfl, h4, h5⟩

/-- C10: a `send_message` invocation whose message is `None`, empty, or
whitespace-only answers `no_update` on every output (conversation history and
displayed messages unchanged) and never consults the Model Gateway (the result
does not depend on the gateway environment). -/
theorem send_message_blank_no_op (env env2 : GatewayEnv) (message : Option String)
    (conversation : Option (List Msg))
    (h : pyFalsyOptStr message = true ∨ pyStrip (message.getD "") = "") :
    send_message env message conversation = (none, none, none)
    ∧ send_message env message conversation = send_message env2 message conversation := by
  have hcond : (pyFalsyOptStr message || (pyStrip (message.getD "")).isEmpty) = true := by
    rcases h with h | h
    · simp [h]
    · have he : (pyStrip (message.getD "")).isEmpty = true := by
        rw [h]
        rfl
      simp [he]
  constructor
  · unfold send_message
    rw [hcond]
    rfl
  · unfold send_message
    rw [hcond]
    rfl

/-- C10 witness: a whitespace-only message leaves everything unchanged under
two different gateway environments. -/
theorem send_message_blank_no_op_witness :
    (pyFalsyOptStr (some "   ") = true ∨ pyStrip ((some "   ").getD "") = "")
    ∧ send_message failingQueryEnv (some "   ") (some twoMsgConv) = (none, none, none)
    ∧ send_message failingQueryEnv (some "   ") (some twoMsgConv) =
        send_message unsetEnv2 (some "   ") (some twoMsgConv) := by
  have h := send_message_blank_no_op failingQueryEnv unsetEnv2 (some "   ")
    (some twoMsgConv) (Or.inr (by decide))
  exact ⟨Or.inr (by decide), h.1, h.2⟩

/-- C9: a missing system prompt file makes startup raise (no successful
startup state exists), while an existing file is loaded, stripped, at
startup. -/
theorem system_prompt_startup :
    (∀ path, startup_system_prompt path none =
        Except.error ("Metadata prompt file not found: " ++ path ++ ". " ++
          "Ensure metadata_prompt.txt exists in the same directory as app.py.")
      ∧ ∀ text, startup_system_prompt path none ≠ Except.ok text)
    ∧ (∀ path text, startup_system_prompt path (some text) = Except.ok (pyStrip text)) := by
  refine ⟨fun path => ⟨rfl, fun text hc => ?_⟩, fun path text => rfl⟩
  exact Except.noConfusion hc

/-- C9 witness: startup fails on a missing file and loads a present one. -/
theorem system_prompt_startup_witness :
    (∀ text, startup_system_prompt "metadata_prompt.txt" none ≠ Except.ok text)
    ∧ startup_system_prompt "metadata_prompt.txt" (some " prompt ") =
        Except.ok "prompt" := by
  refine ⟨(system_prompt_startup.1 "metadata_prompt.txt").2, ?_⟩
  rw [system_prompt_startup.2 "metadata_prompt.txt" " prompt "]
  rfl

end MetadataApp
